import Mathlib

/-!
# Verification of pyvac's LDAP helper and CRUD view base layer

A shallow embedding of `pyvac/helpers/ldap.py` and `pyvac/views/base.py`,
together with theorems settling the frozen claims about them.

Conventions of the embedding:

* A directory entry (a python-ldap result `dict` mapping attribute names to
  lists of string values) is an association list `Entry`; python dict lookup
  is `entryLookup` (dict keys are unique, so first match is the match).
* The remote directory is abstracted as the function the code observes:
  `search_s(base, SCOPE_SUBTREE, what, retrieve)` becomes a parameter
  `search : String → List String → List (String × Entry)` from the filter and
  the requested attribute list to the result list.
* Python exceptions become `Except PyErr`; `PyErr` has one constructor per
  distinct exception kind the modelled code can raise.
* Machine strings stay `String`; byte strings (password hashing) become
  `List Nat` with explicit `< 256` bounds.
-/

namespace Pyvac

/-- Exception kinds raised by the modelled code: the repository's own
`UnknownLdapUser`, the python builtins `KeyError` (missing dict key),
`IndexError` (`res[0]` on an empty list / `pop()` on an empty list),
`TypeError` (a list passed where a string is required), `ValueError`
(`int()` on a non-numeric string), and the load failure of the
spec-modelled relational lookup-by-id. -/
inductive PyErr where
  | unknownLdapUser : PyErr
  | keyError : PyErr
  | indexError : PyErr
  | typeError : PyErr
  | valueError : PyErr
  | noResultFound : PyErr
  deriving DecidableEq

/-- The configuration fields of `LdapWrapper.__init__` that the modelled
operations read (connection credentials and URL are consumed by the external
`ldap.initialize`/`simple_bind_s` calls and are not part of the pure model). -/
structure LdapConfig where
  basedn : String
  search_filter : String
  mail_attr : String
  firstname_attr : String
  lastname_attr : String
  login_attr : String
  manager_attr : String
  country_attr : String
  admin_dn : String
  deriving DecidableEq

/-- A directory entry as returned by python-ldap `search_s`: a dict from
attribute names to lists of values, modelled as an association list. -/
def Entry : Type := List (String × List String)

instance : DecidableEq Entry := by
  unfold Entry
  infer_instance

/-- Python dict lookup `entry[k]` (dict keys are unique, first match wins). -/
def entryLookup (e : Entry) (k : String) : Option (List String) :=
  (List.find? (fun kv => kv.1 = k) e).map (fun kv => kv.2)

/-- The abstract remote directory seen through
`search_s(base, SCOPE_SUBTREE, what, retrieve)`: filter string and requested
attribute list in, result list of `(dn, entry)` pairs out. -/
def SearchFn : Type := String → List String → List (String × Entry)

/-- Split a character list on a separator character, in the manner of
python's `str.split(sep)`: the empty list splits to one empty piece, and
each separator occurrence starts a new piece.  (Defined over `List Char`
because the kernel cannot evaluate `String.splitOn`.) -/
def splitOnChar (sep : Char) : List Char → List (List Char)
  | [] => [[]]
  | c :: rest =>
    match splitOnChar sep rest with
    | [] => if c = sep then [[], []] else [[c]]
    | x :: xs => if c = sep then [] :: x :: xs else (c :: x) :: xs

/-- Python `%` formatting of a template against one string argument, as in
`self._filter % item`: the first `%s` is replaced by the argument.  (The
config contract guarantees one placeholder; a template without one is
returned unchanged rather than modelling python's `TypeError`.) -/
def substFirst (arg : List Char) : List Char → List Char
  | [] => []
  | '%' :: 's' :: rest => arg ++ rest
  | c :: rest => c :: substFirst arg rest

/-- `tmpl % arg` for a single-`%s` template, over `String`. -/
def pyFormat (tmpl arg : String) : String :=
  String.mk (substFirst arg.toList tmpl.toList)

/-- Model of the external `ldap.dn.str2dn` on DN strings without escaped
separators: a DN is a comma-separated list of RDN components, each a
`+`-separated set of `attr=value` pairs (the value keeps any further `=`
characters).  `str2dn` of the empty string is the empty list. -/
def str2dn (s : String) : List (List (String × String)) :=
  if s = "" then []
  else (splitOnChar ',' s.toList).map (fun comp =>
    (splitOnChar '+' comp).map (fun av =>
      match splitOnChar '=' av with
      | [] => ("", "")
      | [a] => (String.mk a, "")
      | a :: rest => (String.mk a, String.mk (List.intercalate ['='] rest))))

/-- `rdn[0]`: the first attribute-value pair of one (possibly multi-valued)
RDN component. -/
def rdnHead (rdn : List (String × String)) : String × String :=
  rdn.headD ("", "")

/-- `LdapWrapper._extract_country`: scan the DN's RDN components and return
the value of the first one whose attribute is the configured country
attribute (`None` when there is no match). -/
def extract_country (cfg : LdapConfig) (user_dn : String) : Option String :=
  (str2dn user_dn).findSome? (fun rdn =>
    if (rdnHead rdn).1 = cfg.country_attr then some (rdnHead rdn).2 else none)

/-- `LdapWrapper._extract_cn`: scan the DN's RDN components and return the
value of the first one whose attribute is the configured login attribute
(`None` when there is no match). -/
def extract_cn (cfg : LdapConfig) (user_dn : String) : Option String :=
  (str2dn user_dn).findSome? (fun rdn =>
    if (rdnHead rdn).1 = cfg.login_attr then some (rdnHead rdn).2 else none)

/-- `entry[attr].pop()` in `parse_ldap_entry`: look the attribute up in the
entry (`KeyError` when absent) and take the last element of its value list
(`IndexError` when the list is empty).  The configured attributes are
pairwise distinct, so the mutation performed by python's `pop` is not
observable and the model reads without removing. -/
def popAttr (e : Entry) (k : String) : Except PyErr String :=
  match entryLookup e k with
  | none => .error .keyError
  | some vs =>
    match vs.getLast? with
    | none => .error .indexError
    | some v => .ok v

/-- The normalized user record built by `parse_ldap_entry`. -/
structure Profile where
  email : String
  firstname : String
  lastname : String
  login : String
  manager : String
  dn : String
  country : Option String
  deriving DecidableEq

/-- The manager post-processing loop of `parse_ldap_entry`: for each RDN of
the manager's DN whose first pair has the configured login attribute,
overwrite the manager value with that pair's value — so the last matching
RDN wins, and the raw DN is kept when no RDN matches. -/
def manager_login (cfg : LdapConfig) (mgr : String) : String :=
  (str2dn mgr).foldl
    (fun acc rdn => if (rdnHead rdn).1 = cfg.login_attr then (rdnHead rdn).2 else acc)
    mgr

/-- `LdapWrapper.parse_ldap_entry`: `None` for a falsy dn or entry, otherwise
pop the configured mail/firstname/lastname/login/manager attributes (each a
possible `KeyError`/`IndexError`), record the dn, derive the country from the
dn, and rewrite the manager DN to the login extracted from it. -/
def parse_ldap_entry (cfg : LdapConfig) (user_dn : String) (e : Entry) :
    Except PyErr (Option Profile) :=
  if user_dn = "" ∨ e.isEmpty then .ok none
  else
    match popAttr e cfg.mail_attr with
    | .error er => .error er
    | .ok email =>
    match popAttr e cfg.firstname_attr with
    | .error er => .error er
    | .ok firstname =>
    match popAttr e cfg.lastname_attr with
    | .error er => .error er
    | .ok lastname =>
    match popAttr e cfg.login_attr with
    | .error er => .error er
    | .ok login =>
    match popAttr e cfg.manager_attr with
    | .error er => .error er
    | .ok manager0 =>
      .ok (some { email := email, firstname := firstname, lastname := lastname,
                  login := login, manager := manager_login cfg manager0,
                  dn := user_dn, country := extract_country cfg user_dn })

/-- The query a search submits: the filter string and the requested
attribute list, recorded so theorems can talk about what reaches the
directory. -/
structure Query where
  filter : String
  attrs : List String
  deriving DecidableEq

/-- `LdapWrapper._search_by_item`: substitute the item into the configured
filter template, search with the fixed required-attribute list, raise
`UnknownLdapUser` on zero results, and decode the first result.  The
submitted query is returned alongside the outcome. -/
def search_by_item (cfg : LdapConfig) (search : SearchFn) (item : String) :
    Query × Except PyErr (Option Profile) :=
  let required : List String := ["cn", "mail", "uid", "givenName", "sn", "manager"]
  let what := pyFormat cfg.search_filter item
  (⟨what, required⟩,
    match search what required with
    | [] => .error .unknownLdapUser
    | (user_dn, e) :: _ => parse_ldap_entry cfg user_dn e)

/-- `LdapWrapper.search_user_by_login`: wrap the login in a substring
pattern `cn=*login*` and delegate to `_search_by_item`. -/
def search_user_by_login (cfg : LdapConfig) (search : SearchFn) (login : String) :
    Query × Except PyErr (Option Profile) :=
  search_by_item cfg search ("cn=*" ++ login ++ "*")

/-- The configuration the claims' scenarios use: filter template `(cn=%s)`
and the standard attribute mapping of the repository's sample config. -/
def cfg0 : LdapConfig :=
  { basedn := "dc=example,dc=com"
    search_filter := "(cn=%s)"
    mail_attr := "mail"
    firstname_attr := "givenName"
    lastname_attr := "sn"
    login_attr := "cn"
    manager_attr := "manager"
    country_attr := "c"
    admin_dn := "ou=admins,dc=example,dc=com" }

/-- `LdapWrapper.update_user`: rebuild the DN from login, country and the
base DN, fetch the current entry with the nine-attribute retrieve list, take
`res[0]` (python raises `IndexError` on an empty result list — there is no
`UnknownLdapUser` check here), read each field's old value from the entry
(`KeyError` when absent), and hand `(dn, old, new)` to the external
`modlist.modifyModlist`/`modify_s` pair, modelled as the returned value. -/
def update_user (cfg : LdapConfig) (search : SearchFn) (login country : String)
    (fields : List (String × List String)) :
    Except PyErr (String × List (String × List String) × List (String × List String)) :=
  let dn := "cn=" ++ login ++ ",c=" ++ country ++ "," ++ cfg.basedn
  let required : List String :=
    ["objectClass", "employeeType", "cn", "givenName", "sn", "manager", "mail", "ou", "uid"]
  match search (pyFormat cfg.search_filter dn) required with
  | [] => .error .indexError
  | (_, entry) :: _ =>
    match fields.mapM (fun fv =>
        match entryLookup entry fv.1 with
        | none => (.error .keyError : Except PyErr (String × List String))
        | some ov => .ok (fv.1, ov)) with
    | .error er => .error er
    | .ok old => .ok (dn, old, fields)

/-- `LdapWrapper._search_admin`: subtree search under the configured admin
DN; abstracted like `SearchFn`, with the attribute list optional because
`get_hr_by_country` passes `None` (all attributes). -/
def AdminSearchFn : Type := String → Option (List String) → List (String × Entry)

/-- `LdapWrapper.get_hr_by_country`: search the admin subtree with filter
`(member=*)` and return from the first iteration of the loop over results.
The loop body evaluates `self._extract_cn(entry['member'])`: `entry['member']`
is a `KeyError` when the attribute is absent, and otherwise is a *list* of
values (python-ldap returns every attribute as a list), which the external
`ldap.dn.str2dn` inside `_extract_cn` rejects with `TypeError` because it
accepts only strings — so no iteration reaches `search_user_by_login`.
The `country` argument is never read. -/
def get_hr_by_country (_cfg : LdapConfig) (searchAdmin : AdminSearchFn)
    (_country : String) : Except PyErr (Option Profile) :=
  match searchAdmin "(member=*)" none with
  | [] => .ok none
  | (_, entry) :: _ =>
    match entryLookup entry "member" with
    | none => .error .keyError
    | some _vals => .error .typeError

/-! ## Password hashing (`hashPassword`)

`hashPassword` computes `"{SSHA}" + urlsafe_b64encode(sha1(password + salt) +
salt)` with a 4-byte `os.urandom` salt.  The salt and the SHA-1 digest are
external inputs of the pure model: the salt is a parameter, and the digest is
a parameter function (SHA-1 digests are 20 bytes long).  Bytes are `Nat`
values below 256. -/

/-- One character of the URL-safe base64 alphabet
`A..Z a..z 0..9 - _` (the argument is a 6-bit group). -/
def b64char (n : Nat) : Char :=
  if n < 26 then Char.ofNat (65 + n)
  else if n < 52 then Char.ofNat (97 + (n - 26))
  else if n < 62 then Char.ofNat (48 + (n - 52))
  else if n = 62 then '-' else '_'

/-- The 6-bit value of a URL-safe base64 alphabet character. -/
def b64val (c : Char) : Nat :=
  if 65 ≤ c.toNat ∧ c.toNat ≤ 90 then c.toNat - 65
  else if 97 ≤ c.toNat ∧ c.toNat ≤ 122 then c.toNat - 97 + 26
  else if 48 ≤ c.toNat ∧ c.toNat ≤ 57 then c.toNat - 48 + 52
  else if c = '-' then 62 else 63

/-- `base64.urlsafe_b64encode`: encode bytes three at a time into four
6-bit characters, padding a trailing group of one or two bytes with `=`. -/
def b64enc : List Nat → List Char
  | [] => []
  | [a] => [b64char (a / 4), b64char (a % 4 * 16), '=', '=']
  | [a, b] => [b64char (a / 4), b64char (a % 4 * 16 + b / 16), b64char (b % 16 * 4), '=']
  | a :: b :: c :: rest =>
    b64char (a / 4) :: b64char (a % 4 * 16 + b / 16) :: b64char (b % 16 * 4 + c / 64) ::
      b64char (c % 64) :: b64enc rest

/-- URL-safe base64 decoding of a well-formed encoding: four characters at a
time, with `=` padding cutting the final group to one or two bytes. -/
def b64decvals : List Char → List Nat
  | w :: x :: y :: z :: rest =>
    if z = '=' then
      if y = '=' then [b64val w * 4 + b64val x / 16]
      else [b64val w * 4 + b64val x / 16, b64val x % 16 * 16 + b64val y / 4]
    else
      (b64val w * 4 + b64val x / 16) :: (b64val x % 16 * 16 + b64val y / 4) ::
        (b64val y % 4 * 64 + b64val z) :: b64decvals rest
  | _ => []

/-- `hashPassword`: `"{SSHA}" + encode(sha1(password + salt).digest() + salt)`.
`digest` stands for the external SHA-1 (`h = sha1(password); h.update(salt)`
digests `password ++ salt`), and `salt` for the 4 bytes of `os.urandom(4)`. -/
def hashPassword (digest : List Nat → List Nat) (password salt : List Nat) : List Char :=
  "{SSHA}".toList ++ b64enc (digest (password ++ salt) ++ salt)

/-! ## View layer (`pyvac/views/base.py`)

The view embedding keeps the external collaborators as parameters: the
request's form fields are an association list (`request.params`), the
subtype's structural validation hook is the list of errors it appends, the
ORM's `model.validate(session)` is an `Except` returning the `ModelError`
error list on failure, and a model instance is a map from attribute names to
optional values (`setattr` updates one point). -/

/-- A draft model instance: attribute names to values (`None` when the
attribute was never set). -/
def Model : Type := String → Option String

/-- `key in self.request.params`. -/
def hasKey (params : List (String × String)) (k : String) : Bool :=
  params.any (fun kv => kv.1 == k)

/-- `k.split('.').pop()`: the last dot-separated component of a form key. -/
def lastComponent (k : String) : String :=
  String.mk ((splitOnChar '.' k.toList).getLastD [])

/-- Python `startswith`. -/
def startsWith (k pre : String) : Bool :=
  List.isPrefixOf pre.toList k.toList

/-- `CreateView.parse_form`: collect into a dict every form entry whose value
is truthy (non-empty) and whose key starts with the model's table-name
prefix, keyed by the key's last dot-separated component; a later entry for
the same component overwrites an earlier one.  The dict is modelled as its
lookup function. -/
def parse_form (tn : String) (params : List (String × String)) : String → Option String :=
  params.foldl
    (fun kw kv =>
      if kv.2 ≠ "" ∧ startsWith kv.1 tn then
        fun a => if a = lastComponent kv.1 then some kv.2 else kw a
      else kw)
    (fun _ => none)

/-- `CreateView.update_model`: `setattr(model, k, v)` for every parsed form
item.  Dict keys are unique and `setattr` calls for distinct attribute names
are independent, so the loop is the pointwise override of the draft by the
parsed dict. -/
def update_model (tn : String) (params : List (String × String)) (m : Model) : Model :=
  fun a =>
    match parse_form tn params a with
    | some v => some v
    | none => m a

/-- What `render` returns: a redirect directive (`HTTPFound`) or the
template-variable payload `{'errors': …, tablename: model, 'csrf_token': …}`. -/
inductive RenderOut where
  | redirect : RenderOut
  | payload (errors : List String) (model : Model) (csrf : String) : RenderOut

/-- The observable trace of one `CreateView.render` run: its return value,
whether the structural-validation stage ran, whether the semantic stage
(`update_model` + `model.validate`) was attempted, and whether the draft was
staged in the session (`save_model`). -/
structure RenderTrace where
  out : RenderOut
  structuralRan : Bool
  semanticAttempted : Bool
  saved : Bool

/-- The body of `CreateView.render` after the cancellation check and after
the draft model has been obtained: the structural stage appends
`structErrors`; if the error list is empty the semantic stage applies the
form fields and runs `model.validate`, a `ModelError` being caught and its
errors extended onto the list; the draft is saved and a redirect returned
exactly when the final list is empty. -/
def render_core (tn : String) (params : List (String × String))
    (structErrors : List String) (mvalidate : Model → Except (List String) Unit)
    (csrf : String) (m0 : Model) : RenderTrace :=
  if hasKey params "form.submitted" then
    if structErrors.isEmpty then
      match mvalidate (update_model tn params m0) with
      | .ok _ =>
        { out := .redirect, structuralRan := true, semanticAttempted := true, saved := true }
      | .error es =>
        if (structErrors ++ es).isEmpty then
          { out := .redirect, structuralRan := true, semanticAttempted := true, saved := true }
        else
          { out := .payload (structErrors ++ es) (update_model tn params m0) csrf,
            structuralRan := true, semanticAttempted := true, saved := false }
    else
      { out := .payload structErrors m0 csrf,
        structuralRan := true, semanticAttempted := false, saved := false }
  else
    { out := .payload [] m0 csrf,
      structuralRan := false, semanticAttempted := false, saved := false }

/-- `CreateView.render`: redirect immediately on the cancellation marker,
otherwise obtain a fresh draft (`self.model()`, never failing) and run the
validation/persist body. -/
def create_render (tn : String) (params : List (String × String))
    (structErrors : List String) (mvalidate : Model → Except (List String) Unit)
    (csrf : String) (m0 : Model) : RenderTrace :=
  if hasKey params "form.cancelled" then
    { out := .redirect, structuralRan := false, semanticAttempted := false, saved := false }
  else render_core tn params structErrors mvalidate csrf m0

/-- Modelled from the spec: `Model.by_id` lives in `pyvac/models.py`, which
is not among the provided sources.  Per §4.4 step 2 ("Edit-mode load failure
(no such identifier) is a fatal error for the request") and the §8 scenario
("identifier `\"42\"` not found in store → fatal error"), looking up an
identifier that is absent from the store fails with an error. -/
def by_id (store : Nat → Option Model) (i : Nat) : Except PyErr Model :=
  match store i with
  | some m => .ok m
  | none => .error .noResultFound

/-- Python `int(s)` on the path identifier (`ValueError` when not numeric). -/
def pyInt (s : String) : Option Nat :=
  if s.toList ≠ [] ∧ s.toList.all (fun c => 48 ≤ c.toNat ∧ c.toNat ≤ 57) then
    some (s.toList.foldl (fun n c => n * 10 + (c.toNat - 48)) 0)
  else none

/-- `EditView.render` (inherited `CreateView.render` with the overridden
`get_model`): after the cancellation check, the draft is loaded by
`self.model.by_id(session, int(matchdict[key]))`; a failure there escapes
`render` (the request's error path), otherwise the shared body runs. -/
def edit_render (tn : String) (params : List (String × String))
    (structErrors : List String) (mvalidate : Model → Except (List String) Unit)
    (csrf : String) (store : Nat → Option Model) (identStr : String) :
    Except PyErr RenderTrace :=
  if hasKey params "form.cancelled" then
    .ok { out := .redirect, structuralRan := false, semanticAttempted := false, saved := false }
  else
    match pyInt identStr with
    | none => .error .valueError
    | some i =>
      match by_id store i with
      | .error e => .error e
      | .ok m0 => .ok (render_core tn params structErrors mvalidate csrf m0)

/-- The spec's reading of the manager rewrite in `parse_ldap_entry`: "the
value of the login-attribute RDN of the manager's DN", taken as the value of
the *last* RDN whose (first) attribute-value pair carries the login
attribute, since the rewrite loop overwrites on every match.  Defined from
the spec's words as the refinement partner of `manager_login`. -/
def loginOfDn_spec (attr : String) (s : String) : Option String :=
  ((str2dn s).filterMap (fun rdn =>
    if (rdnHead rdn).1 = attr then some (rdnHead rdn).2 else none)).getLast?

/-- `ViewBase.__call__` with the default `on_error` hook (which always
propagates): run `render`, then `update_response`, then `session.flush()`,
all inside one `try`; any exception skips the rest (in particular the flush)
and is re-raised.  The boolean records whether the flush was executed. -/
def view_call {E R : Type} (render : Except E R) (upd : R → Except E Unit) :
    Except E R × Bool :=
  match render with
  | .error e => (.error e, false)
  | .ok r =>
    match upd r with
    | .error e => (.error e, false)
    | .ok _ => (.ok r, true)

/-! ## General helper lemmas -/

/-- `getLast?` of a nonempty list is always `some`. -/
theorem getLast?_cons_some {α : Type} (b : α) (bs : List α) :
    ∃ w, (b :: bs).getLast? = some w := by
  induction bs generalizing b with
  | nil => exact ⟨b, rfl⟩
  | cons c cs ih =>
    rw [List.getLast?_cons_cons]
    exact ih c

/-- On a nonempty list, `getLast?` returns `getLastD`. -/
theorem getLast?_of_ne_nil {α : Type} (l : List α) (d : α) (h : l ≠ []) :
    l.getLast? = some (l.getLastD d) := by
  cases l with
  | nil => exact absurd rfl h
  | cons b bs =>
    obtain ⟨w, hw⟩ := getLast?_cons_some b bs
    rw [hw, List.getLastD_eq_getLast?, hw]
    rfl

/-! ## C1 — the filter submitted by `search_user_by_login` -/

/-- C1, counterexample: with `search_filter = "(cn=%s)"` and login `"jdoe"`,
the filter submitted to the directory is `"(cn=cn=*jdoe*)"` — the login is
first wrapped into the substring pattern `cn=*jdoe*` and then substituted —
not the `"(cn=jdoe)"` the claim states. -/
theorem C1_counterexample :
    (search_user_by_login cfg0 (fun _ _ => []) "jdoe").1.filter = "(cn=cn=*jdoe*)" ∧
      (search_user_by_login cfg0 (fun _ _ => []) "jdoe").1.filter ≠ "(cn=jdoe)" := by
  constructor
  · decide
  · decide

/-- C1, amended: for a configuration with `search_filter = "(cn=%s)"` and
login `"jdoe"`, `search_user_by_login` submits to the directory exactly the
filter `"(cn=cn=*jdoe*)"` (the template applied to the substring pattern
`cn=*jdoe*`) together with the attribute list
`[cn, mail, uid, givenName, sn, manager]`, and raises `UnknownLdapUser`
whenever that search returns zero results. -/
theorem C1_amended (search : SearchFn) :
    (search_user_by_login cfg0 search "jdoe").1
        = ⟨"(cn=cn=*jdoe*)", ["cn", "mail", "uid", "givenName", "sn", "manager"]⟩ ∧
      (search "(cn=cn=*jdoe*)" ["cn", "mail", "uid", "givenName", "sn", "manager"] = [] →
        (search_user_by_login cfg0 search "jdoe").2 = Except.error PyErr.unknownLdapUser) := by
  constructor
  · rfl
  · intro h
    show (match search "(cn=cn=*jdoe*)" ["cn", "mail", "uid", "givenName", "sn", "manager"] with
          | [] => (Except.error PyErr.unknownLdapUser : Except PyErr (Option Profile))
          | (user_dn, e) :: _ => parse_ldap_entry cfg0 user_dn e) = Except.error PyErr.unknownLdapUser
    rw [h]

/-- C1, witness: a directory returning zero results for the submitted query
makes `search_user_by_login` raise `UnknownLdapUser`, and the submitted
query is the amended one. -/
theorem C1_witness :
    (search_user_by_login cfg0 (fun _ _ => ([] : List (String × Entry))) "jdoe").1
        = ⟨"(cn=cn=*jdoe*)", ["cn", "mail", "uid", "givenName", "sn", "manager"]⟩ ∧
      (search_user_by_login cfg0 (fun _ _ => ([] : List (String × Entry))) "jdoe").2
        = Except.error PyErr.unknownLdapUser :=
  ⟨(C1_amended (fun _ _ => [])).1, (C1_amended (fun _ _ => [])).2 rfl⟩

/-! ## C2 — `update_user` on a missing entry -/

/-- C2, counterexample: when the search for the reconstructed DN returns zero
results, `update_user` fails with `IndexError` (python's `res[0]` on an empty
list), which is not `UnknownLdapUser`. -/
theorem C2_counterexample :
    update_user cfg0 (fun _ _ => []) "jdoe" "fr" [] = Except.error PyErr.indexError ∧
      PyErr.indexError ≠ PyErr.unknownLdapUser := by
  constructor
  · rfl
  · decide

/-- C2, amended: for every call `update_user(login, country, fields)` where
no directory entry matches the reconstructed DN, the operation fails with
`IndexError` from indexing the empty result list — not `UnknownLdapUser`. -/
theorem C2_amended (cfg : LdapConfig) (search : SearchFn) (login country : String)
    (fields : List (String × List String))
    (h : search
        (pyFormat cfg.search_filter ("cn=" ++ login ++ ",c=" ++ country ++ "," ++ cfg.basedn))
        ["objectClass", "employeeType", "cn", "givenName", "sn", "manager", "mail", "ou", "uid"]
        = []) :
    update_user cfg search login country fields = Except.error PyErr.indexError := by
  simp only [update_user]
  rw [h]

/-- C2, witness: concrete empty directory, login `"jdoe"`, country `"fr"`. -/
theorem C2_witness :
    update_user cfg0 (fun _ _ => ([] : List (String × Entry))) "jdoe" "fr" []
      = Except.error PyErr.indexError :=
  C2_amended cfg0 (fun _ _ => []) "jdoe" "fr" [] rfl

/-! ## C8 — exceptions during Render/PostProcess abort Commit -/

/-- C8: for every dispatch in which `render` raises, or `render` succeeds and
`update_response` raises, `session.flush()` is not executed and, with the
default `on_error` hook, the exception propagates to the caller. -/
theorem C8_view_call_aborts {E R : Type} (render : Except E R)
    (upd : R → Except E Unit) (e : E)
    (h : render = Except.error e ∨ ∃ r, render = Except.ok r ∧ upd r = Except.error e) :
    view_call render upd = (Except.error e, false) := by
  rcases h with h | ⟨r, hr, hu⟩
  · rw [h]
    rfl
  · rw [hr]
    show (match upd r with
          | Except.error e => ((Except.error e : Except E R), false)
          | Except.ok _ => (Except.ok r, true)) = (Except.error e, false)
    rw [hu]

/-- C8, witness: a failing `render` propagates and skips the flush. -/
theorem C8_witness :
    view_call (Except.error PyErr.keyError : Except PyErr RenderTrace)
        (fun _ => Except.ok ()) = (Except.error PyErr.keyError, false) :=
  C8_view_call_aborts _ _ _ (Or.inl rfl)

/-! ## C9 — `get_hr_by_country` ignores its country argument -/

/-- C9, counterexample: on a directory whose admin subtree has a member
entry, `get_hr_by_country` does not produce the first member's profile: the
member attribute's value is a *list* of DNs and `_extract_cn` hands it to
the external `ldap.dn.str2dn`, which accepts only strings, so the call
raises `TypeError` instead of resolving a profile. -/
theorem C9_counterexample :
    get_hr_by_country cfg0
        (fun _ _ => [("cn=admins,ou=admins,dc=example,dc=com",
                      [("member", ["cn=boss,c=fr,dc=example,dc=com"])])])
        "fr" = Except.error PyErr.typeError := rfl

/-- C9, amended: for every pair of country arguments and the same directory
state, `get_hr_by_country` returns the same outcome — the country parameter
is never read, and the outcome is computed solely from the first entry of
the admin-group subtree search (though with the current code that outcome is
an error, not a resolved profile, whenever a member entry exists). -/
theorem C9_amended (cfg : LdapConfig) (searchAdmin : AdminSearchFn) (c1 c2 : String) :
    get_hr_by_country cfg searchAdmin c1 = get_hr_by_country cfg searchAdmin c2 := rfl

/-! ## C3 / C10 — `parse_ldap_entry` -/

/-- C3, counterexample: a directory entry with all required attributes
(`cn, mail, uid, givenName, sn, manager`) whose manager DN has no RDN with
the login attribute `cn`: the decoded profile's `manager` field is the raw
manager DN `"uid=boss,dc=example,dc=com"` itself. -/
theorem C3_counterexample :
    parse_ldap_entry cfg0 "cn=jdoe,c=fr,dc=example,dc=com"
        [("cn", ["jdoe"]), ("mail", ["jdoe@example.com"]), ("uid", ["jdoe"]),
         ("givenName", ["John"]), ("sn", ["Doe"]),
         ("manager", ["uid=boss,dc=example,dc=com"])]
      = Except.ok (some
          { email := "jdoe@example.com", firstname := "John", lastname := "Doe",
            login := "jdoe", manager := "uid=boss,dc=example,dc=com",
            dn := "cn=jdoe,c=fr,dc=example,dc=com", country := some "fr" }) := rfl

/-- C10, counterexample: an entry missing `uid` (but carrying `cn`, `mail`,
`givenName`, `sn`, `manager`) still decodes to a full profile:
`parse_ldap_entry` never reads the `uid` attribute, so its absence does not
fail the construction. -/
theorem C10_counterexample :
    parse_ldap_entry cfg0 "cn=jdoe,c=fr,dc=example,dc=com"
        [("cn", ["jdoe"]), ("mail", ["jdoe@example.com"]), ("givenName", ["John"]),
         ("sn", ["Doe"]), ("manager", ["cn=boss,c=fr,dc=example,dc=com"])]
      = Except.ok (some
          { email := "jdoe@example.com", firstname := "John", lastname := "Doe",
            login := "jdoe", manager := "boss",
            dn := "cn=jdoe,c=fr,dc=example,dc=com", country := some "fr" }) ∧
      entryLookup
        [("cn", ["jdoe"]), ("mail", ["jdoe@example.com"]), ("givenName", ["John"]),
         ("sn", ["Doe"]), ("manager", ["cn=boss,c=fr,dc=example,dc=com"])] "uid" = none := by
  constructor
  · rfl
  · decide

/-- C10, amended: absence of any attribute `parse_ldap_entry` actually reads
— mail, givenName, sn, cn or manager under the standard attribute mapping —
means no profile is produced (an empty entry yields `None`, a nonempty one
raises `KeyError`/`IndexError` on the way); absence of `uid` alone is not
checked. -/
theorem C10_amended (udn : String) (e : Entry)
    (h : entryLookup e cfg0.mail_attr = none ∨ entryLookup e cfg0.firstname_attr = none ∨
         entryLookup e cfg0.lastname_attr = none ∨ entryLookup e cfg0.login_attr = none ∨
         entryLookup e cfg0.manager_attr = none) :
    ∀ p : Profile, parse_ldap_entry cfg0 udn e ≠ Except.ok (some p) := by
  intro p
  simp only [parse_ldap_entry]
  split
  · intro hcon
    exact Option.noConfusion (Except.ok.inj hcon)
  · rcases h with h | h | h | h | h
    · simp [popAttr, h]
    · cases hm : popAttr e cfg0.mail_attr with
      | error er => simp
      | ok _ => simp [popAttr, h]
    · cases hm : popAttr e cfg0.mail_attr with
      | error er => simp
      | ok _ =>
        cases hf : popAttr e cfg0.firstname_attr with
        | error er => simp
        | ok _ => simp [popAttr, h]
    · cases hm : popAttr e cfg0.mail_attr with
      | error er => simp
      | ok _ =>
        cases hf : popAttr e cfg0.firstname_attr with
        | error er => simp
        | ok _ =>
          cases hl : popAttr e cfg0.lastname_attr with
          | error er => simp
          | ok _ => simp [popAttr, h]
    · cases hm : popAttr e cfg0.mail_attr with
      | error er => simp
      | ok _ =>
        cases hf : popAttr e cfg0.firstname_attr with
        | error er => simp
        | ok _ =>
          cases hl : popAttr e cfg0.lastname_attr with
          | error er => simp
          | ok _ =>
            cases hg : popAttr e cfg0.login_attr with
            | error er => simp
            | ok _ => simp [popAttr, h]

/-- C10, witness: an entry missing `givenName` decodes to no profile. -/
theorem C10_witness :
    parse_ldap_entry cfg0 "cn=jdoe,c=fr,dc=example,dc=com"
        [("cn", ["jdoe"]), ("mail", ["jdoe@example.com"])]
      ≠ Except.ok (some
          { email := "jdoe@example.com", firstname := "", lastname := "",
            login := "jdoe", manager := "", dn := "cn=jdoe,c=fr,dc=example,dc=com",
            country := some "fr" }) :=
  C10_amended "cn=jdoe,c=fr,dc=example,dc=com"
    [("cn", ["jdoe"]), ("mail", ["jdoe@example.com"])]
    (Or.inr (Or.inl (by decide))) _

/-! ## C7 — which form entries `update_model` applies -/

/-- C7, counterexample: a form key that merely *starts with* the model name,
without the `<model-name>.<field>` dot pattern, is still applied: with model
name `"user"`, the entry `("userx", "1")` sets attribute `userx` on the
draft. -/
theorem C7_counterexample :
    update_model "user" [("userx", "1")] (fun _ => none) "userx" = some "1" ∧
      startsWith "userx" ("user" ++ ".") = false := by
  constructor
  · decide
  · decide

/-- The value `parse_form`'s fold assigns to attribute `a`, characterized
through the sublist of form entries that bind `a`: the last entry with a
truthy value, a key starting with the model name, and last dot-component
`a` wins; with no such entry the accumulator is untouched. -/
theorem parse_form_aux (tn a : String) (params : List (String × String)) :
    ∀ kw : String → Option String,
      params.foldl
          (fun kw kv =>
            if kv.2 ≠ "" ∧ startsWith kv.1 tn then
              fun x => if x = lastComponent kv.1 then some kv.2 else kw x
            else kw)
          kw a
        = ((params.filter
              (fun kv => decide (kv.2 ≠ "" ∧ startsWith kv.1 tn ∧ a = lastComponent kv.1))).getLast?).elim
            (kw a) (fun kv => some kv.2) := by
  induction params with
  | nil => intro kw; rfl
  | cons kv rest ih =>
    intro kw
    rw [List.foldl_cons, List.filter_cons]
    by_cases h1 : kv.2 ≠ "" ∧ startsWith kv.1 tn
    · rw [if_pos h1, ih]
      by_cases h2 : a = lastComponent kv.1
      · rw [if_pos (show decide (kv.2 ≠ "" ∧ startsWith kv.1 tn ∧ a = lastComponent kv.1) = true by
          simp only [decide_eq_true_eq]
          exact ⟨h1.1, h1.2, h2⟩)]
        cases hf : rest.filter
            (fun kv => decide (kv.2 ≠ "" ∧ startsWith kv.1 tn ∧ a = lastComponent kv.1)) with
        | nil => simp [hf, h2]
        | cons b bs =>
          obtain ⟨w, hw⟩ := getLast?_cons_some b bs
          simp [hf, List.getLast?_cons_cons, hw]
      · rw [if_neg (show ¬decide (kv.2 ≠ "" ∧ startsWith kv.1 tn ∧ a = lastComponent kv.1) = true by
          simp only [decide_eq_true_eq]
          intro hcon
          exact h2 hcon.2.2)]
        cases hf : rest.filter
            (fun kv => decide (kv.2 ≠ "" ∧ startsWith kv.1 tn ∧ a = lastComponent kv.1)) with
        | nil => simp [hf, h2]
        | cons b bs =>
          obtain ⟨w, hw⟩ := getLast?_cons_some b bs
          simp [hf, hw]
    · rw [if_neg h1, ih,
        if_neg (show ¬decide (kv.2 ≠ "" ∧ startsWith kv.1 tn ∧ a = lastComponent kv.1) = true by
          simp only [decide_eq_true_eq]
          intro hcon
          exact h1 ⟨hcon.1, hcon.2.1⟩)]

/-- C7, amended: for every submitted form-field mapping, `update_model`
applies to the draft exactly those entries whose value is non-empty and
whose key *starts with* the model name (with or without a dot), binding the
key's last dot-separated component — the last such entry for a component
wins — and every other attribute of the draft is left unchanged. -/
theorem C7_amended (tn : String) (params : List (String × String)) (m : Model) (a : String) :
    update_model tn params m a
      = ((params.filter
            (fun kv => decide (kv.2 ≠ "" ∧ startsWith kv.1 tn ∧ a = lastComponent kv.1))).getLast?).elim
          (m a) (fun kv => some kv.2) := by
  show (match parse_form tn params a with
        | some v => some v
        | none => m a) = _
  rw [parse_form, parse_form_aux tn a params (fun _ => none)]
  cases (params.filter
      (fun kv => decide (kv.2 ≠ "" ∧ startsWith kv.1 tn ∧ a = lastComponent kv.1))).getLast? with
  | none => rfl
  | some kv => rfl

/-- A fold that overwrites its accumulator on every match computes the last
match (and keeps the initial value when nothing matches). -/
theorem lastMatch_foldl {α β : Type} (P : α → Prop) [DecidablePred P] (val : α → β) :
    ∀ (l : List α) (init : β),
      l.foldl (fun acc x => if P x then val x else acc) init
        = ((l.filterMap (fun x => if P x then some (val x) else none)).getLast?).getD init := by
  intro l
  induction l with
  | nil => intro init; rfl
  | cons x xs ih =>
    intro init
    rw [List.foldl_cons, List.filterMap_cons]
    by_cases hP : P x
    · rw [if_pos hP, if_pos hP, ih]
      cases hf : xs.filterMap (fun x => if P x then some (val x) else none) with
      | nil => simp [hf]
      | cons b bs =>
        obtain ⟨w, hw⟩ := getLast?_cons_some b bs
        simp [hf, List.getLast?_cons_cons, hw]
    · rw [if_neg hP, if_neg hP, ih]

/-- The manager rewrite loop of `parse_ldap_entry` computes the spec-side
extraction, defaulting to the raw manager DN when no RDN matches. -/
theorem manager_login_eq (cfg : LdapConfig) (mgr : String) :
    manager_login cfg mgr = (loginOfDn_spec cfg.login_attr mgr).getD mgr :=
  lastMatch_foldl (fun rdn => (rdnHead rdn).1 = cfg.login_attr)
    (fun rdn => (rdnHead rdn).2) (str2dn mgr) mgr

/-- C3, amended: for every directory entry carrying the read attributes
whose manager DN contains at least one RDN with the login attribute `cn`,
the decoded profile's `manager` field is the value of the last such RDN — a
login string extracted from the DN — rather than the raw manager DN; when no
RDN matches, the raw DN is kept (see the counterexample). -/
theorem C3_amended (udn : String) (e : Entry) (mail fn ln lg mgrs : List String) (v : String)
    (h0 : udn ≠ "")
    (h1 : entryLookup e cfg0.mail_attr = some mail) (h1n : mail ≠ [])
    (h2 : entryLookup e cfg0.firstname_attr = some fn) (h2n : fn ≠ [])
    (h3 : entryLookup e cfg0.lastname_attr = some ln) (h3n : ln ≠ [])
    (h4 : entryLookup e cfg0.login_attr = some lg) (h4n : lg ≠ [])
    (h5 : entryLookup e cfg0.manager_attr = some mgrs) (h5n : mgrs ≠ [])
    (hv : loginOfDn_spec cfg0.login_attr (mgrs.getLastD "") = some v) :
    parse_ldap_entry cfg0 udn e
      = Except.ok (some
          { email := mail.getLastD "", firstname := fn.getLastD "",
            lastname := ln.getLastD "", login := lg.getLastD "",
            manager := v, dn := udn, country := extract_country cfg0 udn }) := by
  have he : e ≠ [] := by
    intro hcon
    rw [hcon] at h1
    exact Option.noConfusion h1
  have hcond : ¬(udn = "" ∨ e.isEmpty) := by
    intro hcon
    rcases hcon with hcon | hcon
    · exact h0 hcon
    · exact he (List.isEmpty_iff.mp hcon)
  simp only [parse_ldap_entry, popAttr, h1, h2, h3, h4, h5, if_neg hcond,
    getLast?_of_ne_nil mail "" h1n, getLast?_of_ne_nil fn "" h2n,
    getLast?_of_ne_nil ln "" h3n, getLast?_of_ne_nil lg "" h4n,
    getLast?_of_ne_nil mgrs "" h5n, manager_login_eq, hv, Option.getD_some]

/-- C3, witness: a manager DN `cn=boss,c=fr,dc=example,dc=com` is rewritten
to the login `boss` in the decoded profile. -/
theorem C3_witness :
    parse_ldap_entry cfg0 "cn=jdoe,c=fr,dc=example,dc=com"
        [("cn", ["jdoe"]), ("mail", ["jdoe@example.com"]), ("uid", ["jdoe"]),
         ("givenName", ["John"]), ("sn", ["Doe"]),
         ("manager", ["cn=boss,c=fr,dc=example,dc=com"])]
      = Except.ok (some
          { email := ["jdoe@example.com"].getLastD "", firstname := ["John"].getLastD "",
            lastname := ["Doe"].getLastD "", login := ["jdoe"].getLastD "",
            manager := "boss", dn := "cn=jdoe,c=fr,dc=example,dc=com",
            country := extract_country cfg0 "cn=jdoe,c=fr,dc=example,dc=com" }) :=
  C3_amended "cn=jdoe,c=fr,dc=example,dc=com"
    [("cn", ["jdoe"]), ("mail", ["jdoe@example.com"]), ("uid", ["jdoe"]),
     ("givenName", ["John"]), ("sn", ["Doe"]),
     ("manager", ["cn=boss,c=fr,dc=example,dc=com"])]
    ["jdoe@example.com"] ["John"] ["Doe"] ["jdoe"] ["cn=boss,c=fr,dc=example,dc=com"] "boss"
    (by decide) rfl (by decide) rfl (by decide) rfl (by decide) rfl (by decide) rfl
    (by decide) rfl

/-! ## C5 — the create flow's two validation stages -/

/-- C5: in the create flow, for a submission carrying the `form.submitted`
marker (and not the cancellation marker, which short-circuits before any
validation), the semantic stage (`update_model` + `model.validate`) is
attempted exactly when the error list is empty after the structural stage;
and a `ModelError` raised by the semantic stage has its errors appended to
the list and handled inside the flow — the render returns the error payload
(or, for an empty `ModelError`, proceeds to save) instead of propagating. -/
theorem C5_semantic_validation (tn : String) (params : List (String × String))
    (structErrors : List String) (mvalidate : Model → Except (List String) Unit)
    (csrf : String) (m0 : Model) (es : List String)
    (hs : hasKey params "form.submitted" = true)
    (hc : hasKey params "form.cancelled" = false) :
    ((create_render tn params structErrors mvalidate csrf m0).semanticAttempted = true
        ↔ structErrors = []) ∧
      (structErrors = [] →
        mvalidate (update_model tn params m0) = Except.error es →
        (create_render tn params structErrors mvalidate csrf m0).out
          = if es.isEmpty then RenderOut.redirect
            else RenderOut.payload es (update_model tn params m0) csrf) := by
  constructor
  · cases hse : structErrors with
    | nil =>
      simp only [create_render, hc, render_core, hs, hse, Bool.false_eq_true, if_false, if_true,
        List.isEmpty_nil]
      cases mvalidate (update_model tn params m0) with
      | ok _ => simp
      | error es' => cases es' <;> simp
    | cons b bs =>
      simp only [create_render, hc, render_core, hs, hse, Bool.false_eq_true, if_false, if_true,
        List.isEmpty_cons]
      simp
  · intro h1 h2
    subst h1
    simp only [create_render, hc, render_core, hs, h2, Bool.false_eq_true, if_false, if_true,
      List.isEmpty_nil, List.nil_append]
    cases es <;> simp

/-- C5, witness: one structural-stage-clean submission whose semantic
validation raises a one-error `ModelError`; the flow returns the error
payload and the semantic stage was attempted. -/
theorem C5_witness :
    ((create_render "user" [("form.submitted", "y")] []
          (fun _ => Except.error ["invalid"]) "tok" (fun _ => none)).semanticAttempted = true
        ↔ ([] : List String) = []) ∧
      (([] : List String) = [] →
        (fun _ => (Except.error ["invalid"] : Except (List String) Unit))
            (update_model "user" [("form.submitted", "y")] (fun _ => none))
          = Except.error ["invalid"] →
        (create_render "user" [("form.submitted", "y")] []
            (fun _ => Except.error ["invalid"]) "tok" (fun _ => none)).out
          = if (["invalid"] : List String).isEmpty then RenderOut.redirect
            else RenderOut.payload ["invalid"]
              (update_model "user" [("form.submitted", "y")] (fun _ => none)) "tok") :=
  C5_semantic_validation "user" [("form.submitted", "y")] []
    (fun _ => Except.error ["invalid"]) "tok" (fun _ => none) ["invalid"]
    (by decide) (by decide)

/-! ## C6 — the edit flow on an unknown identifier -/

/-- C6: in the edit flow, when the path identifier does not correspond to
any stored model, the request ends in a fatal error — `render` escapes with
the load failure, `session.flush()` is never executed, the error propagates
through the default error hook — and no payload is returned, whatever the
submission carries (with or without the `form.submitted` marker).  `by_id`
is modelled from the spec (see its doc comment). -/
theorem C6_edit_missing_is_fatal (tn : String) (params : List (String × String))
    (structErrors : List String) (mvalidate : Model → Except (List String) Unit)
    (csrf : String) (store : Nat → Option Model) (identStr : String) (i : Nat)
    (upd : RenderTrace → Except PyErr Unit)
    (hc : hasKey params "form.cancelled" = false)
    (hi : pyInt identStr = some i)
    (hstore : store i = none) :
    edit_render tn params structErrors mvalidate csrf store identStr
        = Except.error PyErr.noResultFound ∧
      view_call (edit_render tn params structErrors mvalidate csrf store identStr) upd
        = (Except.error PyErr.noResultFound, false) := by
  have h1 : edit_render tn params structErrors mvalidate csrf store identStr
      = Except.error PyErr.noResultFound := by
    simp only [edit_render, hc, Bool.false_eq_true, if_false, hi, by_id, hstore]
  refine ⟨h1, ?_⟩
  rw [h1]
  rfl

/-- C6, witness: identifier `"42"` on an empty store, with the submission
carrying the `form.submitted` marker. -/
theorem C6_witness :
    edit_render "user" [("form.submitted", "y")] [] (fun _ => Except.ok ()) "tok"
        (fun _ => none) "42" = Except.error PyErr.noResultFound ∧
      view_call (edit_render "user" [("form.submitted", "y")] [] (fun _ => Except.ok ()) "tok"
          (fun _ => none) "42") (fun _ => Except.ok ())
        = (Except.error PyErr.noResultFound, false) :=
  C6_edit_missing_is_fatal "user" [("form.submitted", "y")] [] (fun _ => Except.ok ()) "tok"
    (fun _ => none) "42" 42 (fun _ => Except.ok ()) (by decide) (by decide) rfl

/-! ## C4 — the SSHA credential round-trip -/

/-- Decoding inverts encoding on every 6-bit group. -/
theorem b64val_b64char : ∀ n, n < 64 → b64val (b64char n) = n := by decide

/-- No alphabet character is the padding character. -/
theorem b64char_ne_pad : ∀ n, n < 64 → b64char n ≠ '=' := by decide

/-- URL-safe base64 decoding inverts encoding on byte lists. -/
theorem b64_roundtrip : ∀ bs : List Nat, (∀ b ∈ bs, b < 256) →
    b64decvals (b64enc bs) = bs := by
  intro bs
  induction bs using b64enc.induct with
  | case1 =>
    intro _
    rfl
  | case2 a =>
    intro h
    have ha : a < 256 := h a (by simp)
    rw [b64enc, b64decvals, if_pos rfl, if_pos rfl,
      b64val_b64char (a / 4) (by omega), b64val_b64char (a % 4 * 16) (by omega)]
    simp only [List.cons.injEq, and_true]
    omega
  | case3 a b =>
    intro h
    have ha : a < 256 := h a (by simp)
    have hb : b < 256 := h b (by simp)
    rw [b64enc, b64decvals, if_pos rfl, if_neg (b64char_ne_pad (b % 16 * 4) (by omega)),
      b64val_b64char (a / 4) (by omega), b64val_b64char (a % 4 * 16 + b / 16) (by omega),
      b64val_b64char (b % 16 * 4) (by omega)]
    simp only [List.cons.injEq, and_true]
    omega
  | case4 a b c rest ih =>
    intro h
    have ha : a < 256 := h a (by simp)
    have hb : b < 256 := h b (by simp)
    have hc : c < 256 := h c (by simp)
    rw [b64enc, b64decvals, if_neg (b64char_ne_pad (c % 64) (by omega)),
      b64val_b64char (a / 4) (by omega), b64val_b64char (a % 4 * 16 + b / 16) (by omega),
      b64val_b64char (b % 16 * 4 + c / 64) (by omega), b64val_b64char (c % 64) (by omega),
      ih (fun x hx => h x (by simp [hx]))]
    simp only [List.cons.injEq, and_true]
    refine ⟨by omega, by omega, by omega⟩

/-- Dropping the `{SSHA}` scheme tag from the credential. -/
theorem drop_ssha_tag (l : List Char) : ("{SSHA}".toList ++ l).drop 6 = l := by
  rw [show (6 : Nat) = ("{SSHA}".toList).length from rfl]
  exact List.drop_left _ _

/-- C4: for every password and 4-byte salt, the credential produced by
`hashPassword` is the scheme tag `{SSHA}` followed by the URL-safe base64
encoding of `digest(password ++ salt) ++ salt`; decoding the part after the
tag recovers `digest(password ++ salt) ++ salt`, the trailing 4 decoded
bytes are the salt, and re-deriving the digest from the password and those
embedded salt bytes reproduces the embedded digest bytes exactly.  (`digest`
is the external SHA-1: 20-byte digests of byte strings.) -/
theorem C4_hash_roundtrip (digest : List Nat → List Nat) (password salt : List Nat)
    (hslen : salt.length = 4) (hsalt : ∀ b ∈ salt, b < 256)
    (hdig : ∀ b ∈ digest (password ++ salt), b < 256)
    (hdlen : (digest (password ++ salt)).length = 20) :
    hashPassword digest password salt
        = "{SSHA}".toList ++ b64enc (digest (password ++ salt) ++ salt) ∧
      b64decvals ((hashPassword digest password salt).drop 6)
        = digest (password ++ salt) ++ salt ∧
      (b64decvals ((hashPassword digest password salt).drop 6)).drop
          ((b64decvals ((hashPassword digest password salt).drop 6)).length - 4) = salt ∧
      digest (password ++
          (b64decvals ((hashPassword digest password salt).drop 6)).drop
            ((b64decvals ((hashPassword digest password salt).drop 6)).length - 4))
        = (b64decvals ((hashPassword digest password salt).drop 6)).take
            ((b64decvals ((hashPassword digest password salt).drop 6)).length - 4) := by
  have hall : ∀ b ∈ digest (password ++ salt) ++ salt, b < 256 := by
    intro b hb
    rcases List.mem_append.mp hb with hb | hb
    · exact hdig b hb
    · exact hsalt b hb
  have hdec : b64decvals ((hashPassword digest password salt).drop 6)
      = digest (password ++ salt) ++ salt := by
    rw [hashPassword, drop_ssha_tag]
    exact b64_roundtrip _ hall
  have hlen : (digest (password ++ salt) ++ salt).length - 4
      = (digest (password ++ salt)).length := by
    rw [List.length_append, hslen, hdlen]
  have hdrop : (digest (password ++ salt) ++ salt).drop
      ((digest (password ++ salt) ++ salt).length - 4) = salt := by
    rw [hlen, List.drop_left]
  have htake : (digest (password ++ salt) ++ salt).take
      ((digest (password ++ salt) ++ salt).length - 4) = digest (password ++ salt) := by
    rw [hlen, List.take_left]
  refine ⟨rfl, hdec, ?_, ?_⟩
  · rw [hdec, hdrop]
  · rw [hdec, hdrop]
    exact htake.symm

/-- C4, witness: a concrete digest function, password `[1, 2]` and salt
`[9, 8, 7, 6]`; decoding the credential's base64 part returns the digest
followed by the salt. -/
theorem C4_witness :
    b64decvals ((hashPassword (fun _ => List.range 20) [1, 2] [9, 8, 7, 6]).drop 6)
      = List.range 20 ++ [9, 8, 7, 6] :=
  (C4_hash_roundtrip (fun _ => List.range 20) [1, 2] [9, 8, 7, 6] (by decide) (by decide)
    (by decide) (by decide)).2.1

end Pyvac
